import Mathlib

/-!
Verification of the nghx repository cache and execution orchestrator
(src/nghxUtils.ts and src/index.ts), as a shallow embedding.

External effects are modelled by explicit oracles: a `CmdOutcome` records how a
spawned child process ended, filesystem probes are boolean oracles, and marker
files are `Option` values (`none` meaning absent or unreadable, matching the
code paths that swallow read errors).
-/

namespace Nghx

/-- JS String.prototype.trim, modelled over the character list (whitespace
stripped from both ends); equivalent to String.trim but kernel-computable. -/
def trimString (s : String) : String :=
  ⟨((s.data.dropWhile Char.isWhitespace).reverse.dropWhile Char.isWhitespace).reverse⟩

/-- JS String.prototype.endsWith, modelled over character lists; equivalent
to String.endsWith but kernel-computable. -/
def endsWithString (s post : String) : Bool :=
  post.data.isSuffixOf s.data

/-- How a spawned child process ended: the close event fired with an exit
code, or the error event fired (the process could not be spawned at all). -/
inductive CmdOutcome where
  | closed (code : Int)
  | spawnError
deriving DecidableEq, Repr

/-- runCommand (stdio inherited): resolves with the exit code whenever the
process closes, whatever that code is; it rejects only on a spawn error. -/
def runCommand (o : CmdOutcome) : Except Unit Int :=
  match o with
  | .closed c => .ok c
  | .spawnError => .error ()

/-- runCommandWithOutput: resolves with the captured stdout only when the exit
code is 0 (a null code also resolves and is folded into 0 here); it rejects
when the code is nonzero or on a spawn error. -/
def runCommandWithOutput (o : CmdOutcome) (stdout : String) : Except Unit String :=
  match o with
  | .closed c => if c = 0 then .ok stdout else .error ()
  | .spawnError => .error ()

/-- getCurrentCommitSha: git rev-parse HEAD through runCommandWithOutput; the
stdout is trimmed, and a failed probe yields none (never raises). -/
def getCurrentCommitSha (o : CmdOutcome) (stdout : String) : Option String :=
  match runCommandWithOutput o stdout with
  | .ok s => some (trimString s)
  | .error _ => none

/-- needsDependencyInstallation: `lastInstallSha` is the content of the
.nghx-last-install-sha marker file (none when the file is absent, and the
read-error catch that also answers true is folded into none);
`currentCommitSha` is the revision probe result. -/
def needsDependencyInstallation (lastInstallSha : Option String)
    (currentCommitSha : Option String) : Bool :=
  match lastInstallSha with
  | none => true
  | some lastCommitSha =>
    match currentCommitSha with
    | none => true
    | some cur => trimString lastCommitSha != trimString cur

/-- wasRecentlyPulled: the pull marker is the parsed content of the
.nghx-last-pull file (none when absent or unreadable or unparseable, all of
which answer false). Over integer millisecond timestamps the source test
(now - t) / 60000 < 1 in real division is exactly now - t < 60000. -/
def wasRecentlyPulled (lastPull : Option Int) (now : Int) : Bool :=
  match lastPull with
  | none => false
  | some t => decide (now - t < 60000)

/-- The cached checkout directory for one CacheKey: whether a completed clone
is present, whether a partially created clone directory is left over, the
revision the worktree currently holds (content proxy), and the two marker
file contents. -/
structure RepoCache where
  present : Bool
  leftoverDir : Bool
  head : Option String
  pullMarker : Option Int
  lastInstallSha : Option String
deriving DecidableEq, Repr

/-- Oracle for one prepareRepository invocation: the current time and the
outcome of every external command and filesystem write it may perform. -/
structure GitEnv where
  now : Int
  fetchOutcome : CmdOutcome
  revParseOutcome : CmdOutcome
  revParseStdout : String
  resetOutcome : CmdOutcome
  mkdirOk : Bool
  cloneOutcome : CmdOutcome
  cloneHead : String
  cloneLeftover : Bool
  pullWriteOk : Bool
deriving DecidableEq, Repr

/-- updateLastPullTime: best-effort write of the current time into the pull
marker; the write can only land when some directory exists at the cache path,
and write failures are logged and swallowed. -/
def updateLastPullTime (env : GitEnv) (st : RepoCache) : RepoCache :=
  if (st.present || st.leftoverDir) && env.pullWriteOk then
    { st with pullMarker := some env.now }
  else st

/-- Result of one prepareRepository invocation: the cache state afterwards,
whether the call returned the cache path or threw, and how many network
commands (git fetch or git clone) were attempted. -/
structure PrepOutcome where
  state : RepoCache
  result : Except String Unit
  networkOps : Nat
deriving Repr

/-- The Present-to-Present refresh arm of prepareRepository: git fetch through
runCommand (which resolves on any exit code), git rev-parse origin/branch
through runCommandWithOutput (which rejects on nonzero exit), git reset --hard
through runCommand, then the pull marker update; any rejection is caught,
logged, and the existing checkout is used unchanged. -/
def refreshRepo (env : GitEnv) (st : RepoCache) : PrepOutcome :=
  match runCommand env.fetchOutcome with
  | .error _ => ⟨st, .ok (), 1⟩
  | .ok _ =>
    match runCommandWithOutput env.revParseOutcome env.revParseStdout with
    | .error _ => ⟨st, .ok (), 1⟩
    | .ok fetchedCommit =>
      match runCommand env.resetOutcome with
      | .error _ => ⟨st, .ok (), 1⟩
      | .ok resetCode =>
        let afterReset :=
          if resetCode = 0 then { st with head := some (trimString fetchedCommit) } else st
        ⟨updateLastPullTime env afterReset, .ok (), 1⟩

/-- The Absent-to-Present clone arm of prepareRepository: mkdir of the parent,
git clone through runCommand (which resolves on any exit code, so only a spawn
error reaches the catch that removes the partial directory and rethrows), then
the pull marker update. -/
def cloneRepo (env : GitEnv) (st : RepoCache) : PrepOutcome :=
  if env.mkdirOk = false then ⟨st, .error "Failed to clone repository", 0⟩
  else
    match runCommand env.cloneOutcome with
    | .error _ => ⟨⟨false, false, none, none, none⟩, .error "Failed to clone repository", 1⟩
    | .ok cloneCode =>
      if cloneCode = 0 then
        ⟨updateLastPullTime env ⟨true, false, some env.cloneHead, none, none⟩, .ok (), 1⟩
      else
        ⟨updateLastPullTime env ⟨false, env.cloneLeftover, none, none, none⟩, .ok (), 1⟩

/-- prepareRepository: pathExists on the cache path decides the arm; in the
existing arm a fresh pull marker skips the network entirely and the checkout
is returned as-is. -/
def prepareRepository (env : GitEnv) (st : RepoCache) : PrepOutcome :=
  if st.present || st.leftoverDir then
    if wasRecentlyPulled st.pullMarker env.now then ⟨st, .ok (), 0⟩
    else refreshRepo env st
  else cloneRepo env st

/-- An invocation environment in which every external command succeeds with
exit code 0 and the pull marker write lands. -/
def GoodEnv (env : GitEnv) : Prop :=
  env.fetchOutcome = .closed 0 ∧ env.revParseOutcome = .closed 0 ∧
  env.resetOutcome = .closed 0 ∧ env.mkdirOk = true ∧
  env.cloneOutcome = .closed 0 ∧ env.pullWriteOk = true

/-- The three lock-file existence probes taken at the checkout root:
pathExists of package-lock.json, yarn.lock, and pnpm-lock.yaml. -/
structure LockFiles where
  packageLock : Bool
  yarnLock : Bool
  pnpmLock : Bool
deriving DecidableEq, Repr

/-- The package-manager selection of runNpx, in the order the source tests the
lock files. -/
def selectInstallCommand (l : LockFiles) : String × List String :=
  if l.yarnLock then ("yarn", ["install", "--frozen-lockfile"])
  else if l.pnpmLock then ("pnpm", ["install", "--frozen-lockfile"])
  else if l.packageLock then ("npm", ["ci", "--prefer-offline", "--no-audit", "--progress=false"])
  else ("npm", ["install", "--prefer-offline", "--no-audit", "--progress=false"])

/-- Modelled from the claim wording for comparison: the selection order the
claim asserts, pnpm lock first, then yarn, then package-lock, then generic. -/
def selectInstallCommandClaimed (l : LockFiles) : String × List String :=
  if l.pnpmLock then ("pnpm", ["install", "--frozen-lockfile"])
  else if l.yarnLock then ("yarn", ["install", "--frozen-lockfile"])
  else if l.packageLock then ("npm", ["ci", "--prefer-offline", "--no-audit", "--progress=false"])
  else ("npm", ["install", "--prefer-offline", "--no-audit", "--progress=false"])

/-- Oracle for the dependency-install stage of runNpx: the git rev-parse HEAD
probe, the install command outcome, and whether the marker write lands. -/
structure InstallEnv where
  headOutcome : CmdOutcome
  headStdout : String
  installOutcome : CmdOutcome
  installWriteOk : Bool
deriving DecidableEq, Repr

/-- Result of the dependency-install stage: the install marker afterwards,
whether an error was thrown to the caller, and whether an install ran. -/
structure InstallResult where
  lastInstallSha : Option String
  aborted : Bool
  ranInstall : Bool
deriving DecidableEq, Repr

/-- updateLastDependencyInstallSha: writes the freshly probed sha when the
probe succeeds; a failed probe or a failed write is logged and swallowed. -/
def updateLastDependencyInstallSha (env : InstallEnv)
    (lastInstallSha : Option String) : Option String :=
  match getCurrentCommitSha env.headOutcome env.headStdout with
  | some sha => if env.installWriteOk then some sha else lastInstallSha
  | none => lastInstallSha

/-- The install block of runNpx: when needsDependencyInstallation answers
true, run the selected install command through runCommand; only a rejection
reaches the catch that rethrows, and on resolution the marker is updated. -/
def installStage (env : InstallEnv) (lastInstallSha : Option String) : InstallResult :=
  if needsDependencyInstallation lastInstallSha
      (getCurrentCommitSha env.headOutcome env.headStdout) then
    match runCommand env.installOutcome with
    | .error _ => ⟨lastInstallSha, true, true⟩
    | .ok _ => ⟨updateLastDependencyInstallSha env lastInstallSha, false, true⟩
  else ⟨lastInstallSha, false, false⟩

/-- The bin field of a manifest: a single string, or an object mapping command
names to paths (a JSON object; null and non-object values fall outside both
constructors and are modelled as an absent field). -/
inductive BinEntry where
  | str (s : String)
  | table (entries : List (String × String))
deriving DecidableEq, Repr

/-- JS string truthiness lifted to an optional field: a present empty string
is falsy and behaves like an absent value in the source's conditionals. -/
def truthyOpt (o : Option String) : Option String :=
  match o with
  | some s => if s = "" then none else some s
  | none => none

/-- The scriptToExecute chain of runNpx for an empty argument list: a bin
table entry keyed by the package's own name, then a string bin entry, then
the main entry, each guarded by JS truthiness. -/
def chooseScript (packageName : Option String) (bin : Option BinEntry)
    (mainScript : Option String) : Option String :=
  let fromBinTable : Option String :=
    match packageName, bin with
    | some name, some (BinEntry.table t) =>
      if name = "" then none else truthyOpt (t.lookup name)
    | _, _ => none
  let fromBinStr : Option String :=
    match bin with
    | some (BinEntry.str s) => if s = "" then none else some s
    | _ => none
  match fromBinTable with
  | some v => some v
  | none =>
    match fromBinStr with
    | some v => some v
    | none => truthyOpt mainScript

/-- The recognized script extensions tested on the chosen entry string. -/
def isNodeScript (s : String) : Bool :=
  endsWithString s ".js" || endsWithString s ".mjs" || endsWithString s ".cjs"

/-- path.resolve of a relative script against the execution directory. -/
def resolvePath (npxPath script : String) : String :=
  npxPath ++ "/" ++ script

/-- The resolved concrete command and argument list to launch. -/
structure ExecutionPlan where
  command : String
  args : List String
deriving DecidableEq, Repr

/-- The execution-resolution tail of runNpx: with an empty argument list the
chosen script runs under node when it exists and carries a recognized
extension, and every other case degrades to npx with the current-directory
target; with a nonempty argument list npx receives exactly those arguments. -/
def resolveExecution (npxPath : String) (args : List String) (fsExists : String → Bool)
    (packageName : Option String) (bin : Option BinEntry)
    (mainScript : Option String) : ExecutionPlan :=
  if args.length = 0 then
    match chooseScript packageName bin mainScript with
    | some scriptToExecute =>
      if fsExists (resolvePath npxPath scriptToExecute) then
        if isNodeScript scriptToExecute then
          ⟨"node", [resolvePath npxPath scriptToExecute]⟩
        else ⟨"npx", ["."]⟩
      else ⟨"npx", ["."]⟩
    | none => ⟨"npx", ["."]⟩
  else ⟨"npx", args⟩

/-- Oracle and on-disk inputs for one runNpx invocation: the filesystem
existence probe, the lock-file probes, the install-stage oracle, the install
marker content, the build flag read from the manifest, the manifest fields
used by execution resolution, and the outcomes of the build and final
commands. -/
structure RunNpxEnv where
  fsExists : String → Bool
  locks : LockFiles
  installEnv : InstallEnv
  lastInstallSha : Option String
  hasBuildScript : Bool
  buildOutcome : CmdOutcome
  packageName : Option String
  binEntry : Option BinEntry
  mainScript : Option String
  execOutcome : CmdOutcome

/-- Result of one runNpx invocation: the returned exit code or thrown error,
the install marker afterwards, which stages ran, the selected install
command, and the resolved plan when resolution was reached. -/
structure RunNpxResult where
  outcome : Except String Int
  lastInstallSha : Option String
  ranInstall : Bool
  ranBuild : Bool
  ranExec : Bool
  installCommand : Option (String × List String)
  plan : Option ExecutionPlan

/-- runNpx: the target-path existence check throws before anything else; then
package-manager selection, the install stage (whose rejection rethrows), the
build step (whose failure is logged and swallowed in this version), execution
resolution, and the final launch whose exit code is returned. -/
def runNpx (env : RunNpxEnv) (npxPath : String) (args : List String) : RunNpxResult :=
  if env.fsExists npxPath = false then
    ⟨.error "Target path for npx does not exist", env.lastInstallSha,
      false, false, false, none, none⟩
  else
    let installSel := selectInstallCommand env.locks
    let inst := installStage env.installEnv env.lastInstallSha
    if inst.aborted then
      ⟨.error "Dependency installation failed", inst.lastInstallSha,
        inst.ranInstall, false, false, some installSel, none⟩
    else
      let plan := resolveExecution npxPath args env.fsExists
        env.packageName env.binEntry env.mainScript
      match runCommand env.execOutcome with
      | .error _ =>
        ⟨.error "Execution failed", inst.lastInstallSha,
          inst.ranInstall, env.hasBuildScript, true, some installSel, some plan⟩
      | .ok c =>
        ⟨.ok c, inst.lastInstallSha,
          inst.ranInstall, env.hasBuildScript, true, some installSel, some plan⟩

/-- path.join of the repository directory with the parsed subPath, as done in
index.ts when the subPath is nonempty. -/
def executionPath (repoDir subPath : String) : String :=
  if subPath = "" then repoDir else repoDir ++ "/" ++ subPath

/-- The exit of one CLI invocation together with the runNpx trace. -/
structure MainOutcome where
  exitCode : Int
  npx : RunNpxResult

/-- The tail of main in index.ts, after the URL has been parsed into its
components and prepareRepository has produced repoDir: compute the execution
path, run runNpx there, and exit with the child's code, or 1 on any thrown
error (a null child code also exits 1 and is folded into the Int model). -/
def mainAfterParse (env : RunNpxEnv) (repoDir subPath : String)
    (args : List String) : MainOutcome :=
  let r := runNpx env (executionPath repoDir subPath) args
  match r.outcome with
  | .error _ => ⟨1, r⟩
  | .ok c => ⟨c, r⟩

/-- A runNpx environment in which no filesystem path exists; used to
instantiate closed consequences of the theorems below. -/
def trivialNpxEnv : RunNpxEnv :=
  ⟨fun _ => false, ⟨false, false, false⟩, ⟨.closed 0, "", .closed 0, true⟩,
    none, false, .closed 0, none, none, none, .closed 0⟩

/-- A present checkout whose pull marker is an hour out of date. -/
def staleCheckout : RepoCache := ⟨true, false, some "aaa", some 0, some "aaa"⟩

/-- A present checkout whose pull marker is half a second old at time 1000. -/
def staleFreshCheckout : RepoCache := ⟨true, false, some "aaa", some 500, some "aaa"⟩

/-- The Absent cache state. -/
def absentCheckout : RepoCache := ⟨false, false, none, none, none⟩

/-- A refresh invocation at time 600000 in which git fetch closes with exit
code 128 (a network failure) while the stale-ref rev-parse and the reset
still succeed. -/
def fetchFailEnv : GitEnv :=
  ⟨600000, .closed 128, .closed 0, "aaa", .closed 0, true, .closed 0, "aaa", false, true⟩

/-- A first-time invocation at time 600000 in which git clone closes with
exit code 128 and leaves a partially created directory behind. -/
def cloneFailEnv : GitEnv :=
  ⟨600000, .closed 0, .closed 0, "", .closed 0, true, .closed 128, "", true, true⟩

/-- An install stage in which the revision probe yields abc but the selected
install command closes with exit code 1. -/
def installFailEnv : InstallEnv := ⟨.closed 0, "abc", .closed 1, true⟩

/-- An all-success invocation environment at time 1000. -/
def goodEnvA : GitEnv :=
  ⟨1000, .closed 0, .closed 0, "sha1", .closed 0, true, .closed 0, "sha1", false, true⟩

/-- An all-success invocation environment one second later, at time 2000. -/
def goodEnvB : GitEnv :=
  ⟨2000, .closed 0, .closed 0, "sha1", .closed 0, true, .closed 0, "sha1", false, true⟩

/-- refreshRepo always attempts exactly one network fetch. -/
theorem refreshRepo_networkOps (env : GitEnv) (st : RepoCache) :
    (refreshRepo env st).networkOps = 1 := by
  unfold refreshRepo
  repeat' split
  all_goals rfl

/-- cloneRepo attempts at most one network command. -/
theorem cloneRepo_networkOps (env : GitEnv) (st : RepoCache) :
    (cloneRepo env st).networkOps ≤ 1 := by
  unfold cloneRepo
  repeat' split
  all_goals simp

/-- A single prepareRepository invocation attempts at most one network
command. -/
theorem prep_networkOps_le_one (env : GitEnv) (st : RepoCache) :
    (prepareRepository env st).networkOps ≤ 1 := by
  unfold prepareRepository
  split
  · split
    · simp
    · simp [refreshRepo_networkOps]
  · exact cloneRepo_networkOps env st

/-- An existing checkout with a fresh pull marker is returned as-is with no
network work. -/
theorem prep_skip_of_recent (env : GitEnv) (st : RepoCache)
    (h1 : (st.present || st.leftoverDir) = true)
    (h2 : wasRecentlyPulled st.pullMarker env.now = true) :
    prepareRepository env st = ⟨st, .ok (), 0⟩ := by
  simp [prepareRepository, h1, h2]

/-- Under an all-success environment, prepareRepository either skips the
network and leaves the state untouched, or stamps the pull marker with the
invocation time on a state that still passes the existence check. -/
theorem prep_good_refresh (env : GitEnv) (st : RepoCache) (h : GoodEnv env) :
    ((prepareRepository env st).networkOps = 0 ∧ (prepareRepository env st).state = st) ∨
    ((prepareRepository env st).state.pullMarker = some env.now ∧
      ((prepareRepository env st).state.present ||
        (prepareRepository env st).state.leftoverDir) = true) := by
  obtain ⟨hf, hrp, hrs, hmk, hcl, hw⟩ := h
  by_cases hex : (st.present || st.leftoverDir) = true
  · by_cases hrec : wasRecentlyPulled st.pullMarker env.now = true
    · left
      rw [prep_skip_of_recent env st hex hrec]
      exact ⟨rfl, rfl⟩
    · right
      have hrec2 : wasRecentlyPulled st.pullMarker env.now = false := by
        simpa using hrec
      simp [prepareRepository, hex, hrec2, refreshRepo, hf, hrp, hrs,
        runCommand, runCommandWithOutput, updateLastPullTime, hw]
  · right
    have hex2 : (st.present || st.leftoverDir) = false := by simpa using hex
    simp [prepareRepository, hex2, cloneRepo, hmk, hcl, runCommand,
      updateLastPullTime, hw]

/-- Claim C1: needsDependencyInstallation is true exactly when the install
marker is absent, the revision probe failed, or the stored revision differs
from the currently checked-out one; in particular it is true whenever the
marker is absent, regardless of the probe, and whenever the probe fails,
even if a marker exists. -/
theorem needsInstall_iff (m c : Option String) :
    (needsDependencyInstallation m c = true ↔
      (m = none ∨ c = none ∨ Option.map trimString m ≠ Option.map trimString c)) ∧
    needsDependencyInstallation none c = true ∧
    needsDependencyInstallation m none = true := by
  refine ⟨?_, rfl, ?_⟩
  · cases m with
    | none => simp [needsDependencyInstallation]
    | some a =>
      cases c with
      | none => simp [needsDependencyInstallation]
      | some b => simp [needsDependencyInstallation, bne_iff_ne]
  · cases m <;> rfl

/-- Witness for claim C1 at concrete inputs: an absent marker forces an
install even with a successful probe, and matching revisions skip it. -/
theorem needsInstall_iff_app :
    needsDependencyInstallation none (some "abc") = true ∧
    needsDependencyInstallation (some "abc") none = true ∧
    needsDependencyInstallation (some "abc") (some "abc") = false := by
  refine ⟨(needsInstall_iff none (some "abc")).2.1,
    (needsInstall_iff (some "abc") none).2.2, ?_⟩
  have h := (needsInstall_iff (some "abc") (some "abc")).1
  by_cases hb : needsDependencyInstallation (some "abc") (some "abc") = true
  · rcases h.mp hb with h1 | h1 | h1 <;> simp at h1
  · simpa using hb

/-- Claim C2 (code bug): a refresh in which git fetch fails with exit code
128 is not detected, because runCommand resolves on any exit code; the
invocation does return the existing path, but it then resets and rewrites the
pull-timestamp marker, so the markers are not left unchanged as claimed. -/
theorem refresh_fetch_failure_updates_marker :
    fetchFailEnv.fetchOutcome = CmdOutcome.closed 128 ∧
    (prepareRepository fetchFailEnv staleCheckout).result = .ok () ∧
    staleCheckout.pullMarker = some 0 ∧
    (prepareRepository fetchFailEnv staleCheckout).state.pullMarker = some 600000 :=
  ⟨rfl, rfl, rfl, rfl⟩

/-- Claim C3 (code bug): when the selected install command fails with exit
code 1, runCommand still resolves, so the stage does not abort and the
install marker is rewritten to the current revision, contrary to the claim
that a failed install aborts the operation and leaves the marker alone. -/
theorem install_failure_not_aborted :
    installFailEnv.installOutcome = CmdOutcome.closed 1 ∧
    (installStage installFailEnv none).aborted = false ∧
    (installStage installFailEnv none).ranInstall = true ∧
    (installStage installFailEnv none).lastInstallSha = some "abc" :=
  ⟨rfl, rfl, rfl, by decide⟩

/-- Claim C4: a pull marker younger than one minute makes prepareRepository
skip all network work and return the checkout as-is, and two invocations in
immediate succession (the second within the window of the first, with the
first invocation's external commands succeeding) perform at most one network
command between them. -/
theorem fresh_window_skip_and_single_refresh (st : RepoCache) (env1 env2 : GitEnv) (t : Int) :
    (st.present = true → st.pullMarker = some t → env1.now - t < 60000 →
      prepareRepository env1 st = ⟨st, .ok (), 0⟩) ∧
    (GoodEnv env1 → env2.now - env1.now < 60000 →
      (prepareRepository env1 st).networkOps +
        (prepareRepository env2 (prepareRepository env1 st).state).networkOps ≤ 1) := by
  constructor
  · intro hp hm hw
    apply prep_skip_of_recent
    · simp [hp]
    · simp [wasRecentlyPulled, hm]
      exact hw
  · intro hg hw
    rcases prep_good_refresh env1 st hg with ⟨h0, hst⟩ | ⟨hm, hp⟩
    · rw [h0, hst]
      simpa using prep_networkOps_le_one env2 st
    · have hskip := prep_skip_of_recent env2 (prepareRepository env1 st).state hp
        (by simp [wasRecentlyPulled, hm]; exact hw)
      rw [hskip]
      simpa using prep_networkOps_le_one env1 st

/-- Witness for claim C4 at concrete inputs: a half-second-old marker is
reused untouched, and a clone followed one second later by a second
invocation costs one network command in total. -/
theorem fresh_window_skip_and_single_refresh_app :
    prepareRepository goodEnvA staleFreshCheckout = ⟨staleFreshCheckout, .ok (), 0⟩ ∧
    (prepareRepository goodEnvA absentCheckout).networkOps +
      (prepareRepository goodEnvB (prepareRepository goodEnvA absentCheckout).state).networkOps ≤ 1 := by
  constructor
  · exact (fresh_window_skip_and_single_refresh staleFreshCheckout goodEnvA goodEnvB 500).1
      rfl rfl (by decide)
  · exact (fresh_window_skip_and_single_refresh absentCheckout goodEnvA goodEnvB 0).2
      ⟨rfl, rfl, rfl, rfl, rfl, rfl⟩ (by decide)

/-- Claim C5 counterexample: with both yarn.lock and pnpm-lock.yaml present
the source selects yarn, while the claimed priority order (pnpm first)
selects pnpm. -/
theorem lock_priority_counterexample :
    selectInstallCommand ⟨false, true, true⟩ = ("yarn", ["install", "--frozen-lockfile"]) ∧
    selectInstallCommandClaimed ⟨false, true, true⟩ = ("pnpm", ["install", "--frozen-lockfile"]) ∧
    selectInstallCommand ⟨false, true, true⟩ ≠ selectInstallCommandClaimed ⟨false, true, true⟩ := by
  refine ⟨rfl, rfl, ?_⟩
  decide

/-- Claim C5 as amended: the selection inspects yarn.lock first, then
pnpm-lock.yaml, then package-lock.json (selecting the reproducible npm ci),
and with no lock file present selects the generic npm install. -/
theorem lock_priority_amended (l : LockFiles) :
    (l.yarnLock = true → selectInstallCommand l = ("yarn", ["install", "--frozen-lockfile"])) ∧
    (l.yarnLock = false → l.pnpmLock = true →
      selectInstallCommand l = ("pnpm", ["install", "--frozen-lockfile"])) ∧
    (l.yarnLock = false → l.pnpmLock = false → l.packageLock = true →
      selectInstallCommand l =
        ("npm", ["ci", "--prefer-offline", "--no-audit", "--progress=false"])) ∧
    (l.yarnLock = false → l.pnpmLock = false → l.packageLock = false →
      selectInstallCommand l =
        ("npm", ["install", "--prefer-offline", "--no-audit", "--progress=false"])) := by
  refine ⟨?_, ?_, ?_, ?_⟩ <;> intros <;> simp [selectInstallCommand, *]

/-- Witness for claim C5 as amended: a package-lock.json alone selects the
reproducible npm ci. -/
theorem lock_priority_amended_app :
    selectInstallCommand ⟨true, false, false⟩ =
      ("npm", ["ci", "--prefer-offline", "--no-audit", "--progress=false"]) :=
  (lock_priority_amended ⟨true, false, false⟩).2.2.1 rfl rfl rfl

/-- Claim C6: with an empty argument list the resolver always produces a
nonempty plan; no bin or main entry, a chosen entry whose resolved path does
not exist, and a chosen entry without a recognized script extension all fall
back to the generic npx current-directory form. -/
theorem resolver_total_fallback (npxPath : String) (fs : String → Bool)
    (pn : Option String) (bin : Option BinEntry) (mainScript : Option String) :
    resolveExecution npxPath [] fs pn none none = ⟨"npx", ["."]⟩ ∧
    ((resolveExecution npxPath [] fs pn bin mainScript).command ≠ "" ∧
      (resolveExecution npxPath [] fs pn bin mainScript).args ≠ []) ∧
    (∀ s, chooseScript pn bin mainScript = some s →
      fs (resolvePath npxPath s) = false →
      resolveExecution npxPath [] fs pn bin mainScript = ⟨"npx", ["."]⟩) ∧
    (∀ s, chooseScript pn bin mainScript = some s →
      fs (resolvePath npxPath s) = true → isNodeScript s = false →
      resolveExecution npxPath [] fs pn bin mainScript = ⟨"npx", ["."]⟩) := by
  refine ⟨?_, ?_, ?_, ?_⟩
  · have hnone : chooseScript pn none none = none := by
      cases pn <;> rfl
    simp [resolveExecution, hnone]
  · unfold resolveExecution
    cases h : chooseScript pn bin mainScript with
    | none => simp
    | some s =>
      by_cases hf : fs (resolvePath npxPath s) <;>
        by_cases hn : isNodeScript s <;> simp [hf, hn]
  · intro s hs hf
    simp [resolveExecution, hs, hf]
  · intro s hs hf hn
    simp [resolveExecution, hs, hf, hn]

/-- Witness for claim C6: a string bin entry whose resolved path does not
exist still yields the generic plan. -/
theorem resolver_total_fallback_app :
    resolveExecution "r" [] (fun _ => false) none (some (BinEntry.str "cli")) none =
      ⟨"npx", ["."]⟩ := by
  have h := resolver_total_fallback "r" (fun _ => false) none (some (BinEntry.str "cli")) none
  exact h.2.2.1 "cli" rfl rfl

/-- Claim C7: with an empty argument list the candidate entry is chosen in
the order bin-table entry keyed by the package name, then a string bin
entry, then main; and a chosen entry that resolves to an existing file with
a .js, .mjs or .cjs ending runs directly under node. -/
theorem resolver_priority_node (npxPath n v s m : String) (t : List (String × String))
    (fs : String → Bool) (pn : Option String) (bin : Option BinEntry)
    (mainScript : Option String) :
    (n ≠ "" → t.lookup n = some v → v ≠ "" →
      chooseScript (some n) (some (BinEntry.table t)) mainScript = some v) ∧
    (s ≠ "" → chooseScript pn (some (BinEntry.str s)) mainScript = some s) ∧
    (m ≠ "" → chooseScript pn none (some m) = some m) ∧
    (chooseScript pn bin mainScript = some s → fs (resolvePath npxPath s) = true →
      isNodeScript s = true →
      resolveExecution npxPath [] fs pn bin mainScript = ⟨"node", [resolvePath npxPath s]⟩) := by
  refine ⟨?_, ?_, ?_, ?_⟩
  · intro hn hl hv
    simp [chooseScript, hn, hl, truthyOpt, hv]
  · intro hs
    cases pn <;> simp [chooseScript, hs]
  · intro hm
    cases pn <;> simp [chooseScript, truthyOpt, hm]
  · intro hc hf hn
    simp [resolveExecution, hc, hf, hn]

/-- Witness for claim C7: a bin table keyed by the package name, resolving
to an existing .js file, runs under node. -/
theorem resolver_priority_node_app :
    resolveExecution "r" [] (fun _ => true) (some "mypkg")
        (some (BinEntry.table [("mypkg", "cli.js")])) none = ⟨"node", ["r/cli.js"]⟩ := by
  have h := resolver_priority_node "r" "mypkg" "cli.js" "cli.js" "m"
      [("mypkg", "cli.js")] (fun _ => true) (some "mypkg")
      (some (BinEntry.table [("mypkg", "cli.js")])) none
  have hc : chooseScript (some "mypkg") (some (BinEntry.table [("mypkg", "cli.js")])) none =
      some "cli.js" := h.1 (by decide) rfl (by decide)
  exact h.2.2.2 hc rfl (by decide)

/-- Claim C8 counterexample: with a nonempty argument list the source runs
npx with exactly the caller's arguments and does not prepend the
current-directory target, so the executed target is not the current
directory's package. -/
theorem args_passthrough_counterexample :
    resolveExecution "repo" ["hello"] (fun _ => true) none none none = ⟨"npx", ["hello"]⟩ ∧
    (⟨"npx", ["hello"]⟩ : ExecutionPlan) ≠ ⟨"npx", "." :: ["hello"]⟩ := by
  exact ⟨rfl, by decide⟩

/-- Claim C8 as amended: with a nonempty argument list the plan invokes npx
with exactly the caller's arguments, in order and unmodified, as the full
invocation; no current-directory target is prepended. -/
theorem args_passthrough (npxPath : String) (fs : String → Bool) (pn : Option String)
    (bin : Option BinEntry) (mainScript : Option String) (args : List String)
    (h : args ≠ []) :
    resolveExecution npxPath args fs pn bin mainScript = ⟨"npx", args⟩ := by
  have hl : args.length ≠ 0 := by simpa using h
  simp [resolveExecution, hl]

/-- Witness for claim C8 as amended, at a concrete two-argument call. -/
theorem args_passthrough_app :
    resolveExecution "repo" ["hello", "world"] (fun _ => true) none none none =
      ⟨"npx", ["hello", "world"]⟩ :=
  args_passthrough "repo" (fun _ => true) none none none ["hello", "world"] (by decide)

/-- Claim C9 (code bug): a first-time clone that fails with exit code 128 is
not detected, because runCommand resolves on any exit code; the partially
created directory is not removed, the pull marker is written into it, and
the invocation proceeds with the cache path instead of failing. -/
theorem clone_exit_failure_proceeds :
    cloneFailEnv.cloneOutcome = CmdOutcome.closed 128 ∧
    (prepareRepository cloneFailEnv absentCheckout).result = .ok () ∧
    (prepareRepository cloneFailEnv absentCheckout).state.present = false ∧
    (prepareRepository cloneFailEnv absentCheckout).state.leftoverDir = true ∧
    (prepareRepository cloneFailEnv absentCheckout).state.pullMarker = some 600000 :=
  ⟨rfl, rfl, rfl, rfl, rfl⟩

/-- Claim C10: a nonempty subPath whose joined path does not exist in the
prepared checkout makes runNpx throw before the install, build and execution
stages, and the CLI exits with code 1. -/
theorem missing_subpath_aborts (env : RunNpxEnv) (repoDir subPath : String)
    (args : List String) (hs : subPath ≠ "")
    (hfs : env.fsExists (repoDir ++ "/" ++ subPath) = false) :
    (mainAfterParse env repoDir subPath args).exitCode = 1 ∧
    (mainAfterParse env repoDir subPath args).npx.ranInstall = false ∧
    (mainAfterParse env repoDir subPath args).npx.ranBuild = false ∧
    (mainAfterParse env repoDir subPath args).npx.ranExec = false := by
  have hep : executionPath repoDir subPath = repoDir ++ "/" ++ subPath := by
    simp [executionPath, hs]
  simp [mainAfterParse, hep, runNpx, hfs]

/-- Witness for claim C10 at a concrete missing subpath. -/
theorem missing_subpath_aborts_app :
    (mainAfterParse trivialNpxEnv "cache/acme/tool/main" "sub" []).exitCode = 1 :=
  (missing_subpath_aborts trivialNpxEnv "cache/acme/tool/main" "sub" [] (by decide) rfl).1

end Nghx
